import Mathlib

/-!
Verification development for the prosumer energy-dispatch optimizer
(`src/opt_model/opt_model.py`).  The Python module is shallowly embedded:
parameter adapters (`Consumer`, `DER`, `Grid`) become pure Lean functions over
rationals, the Gurobi model built by
`EnergySystemModel.build_and_solve_standardized` becomes an explicit list of
linear constraints over a variable-name type together with an objective
function, and the post-solve branch becomes a total function from an abstract
solver outcome to an optional result record.  Scale-configuration keys and
solver variable/constraint names, which are strings in the source, are
represented by inductive types with the same constructor names.
-/

namespace Group25

/-- A Python value that may reach `to_list`: a number, a list of numbers, or
`None` (a missing parameter).  Mirrors the dynamic typing of the source. -/
inductive PyVal where
  | num : ℚ → PyVal
  | list : List ℚ → PyVal
  | none : PyVal
deriving DecidableEq

/-- Embedding of `to_list(v, num_hours, scale)` (opt_model.py lines 8-15):
a list input is scaled element-wise and returned at its own length; a numeric
input is broadcast to `num_hours` copies (the Python test `v or v == 0`
accepts every number); `None` yields `num_hours` missing sentinels. -/
def to_list : PyVal → Nat → ℚ → List (Option ℚ)
  | .list l, _, scale => l.map (fun vi => some (vi * scale))
  | .num v, num_hours, scale => List.replicate num_hours (some (v * scale))
  | .none, num_hours, _ => List.replicate num_hours Option.none

/-- The named multiplier keys of the scenario scaling mapping, as the source
spells them (the three state-of-charge keys stand for the source strings
with the ratio suffix: initial_soc_ratio, soc_min, final_soc_ratio). -/
inductive ScaleKey where
  | load_scale
  | reference_profile_scale
  | storage_capacity_scale
  | battery_price_coeff_scale
  | max_charge_power_scale
  | max_discharge_power_scale
  | initial_soc
  | soc_min
  | final_soc
  | pv_scale
  | import_tariff_scale
  | export_tariff_scale
  | price_scale
  | max_import_kW
  | max_export_kW
deriving DecidableEq, BEq

/-- Embedding of Python's `scale.get(key, default)` on the scaling mapping. -/
def scaleGet (s : List (ScaleKey × ℚ)) (k : ScaleKey) (d : ℚ) : ℚ :=
  match s.lookup k with
  | some v => v
  | Option.none => d

/-- The `Grid` adapter (opt_model.py lines 160-197): raw bus parameters plus
the scaling mapping.  Field names mirror the source dictionary keys. -/
structure Grid where
  import_tariff_DKK_per_kWh : PyVal
  export_tariff_DKK_per_kWh : PyVal
  energy_price_DKK_per_kWh : PyVal
  max_import_kW : ℚ
  max_export_kW : ℚ
  scale : List (ScaleKey × ℚ)
deriving DecidableEq

/-- `Grid.get_import_tariff` (lines 174-177): per-hour import tariff, scaled
by the `import_tariff_scale` multiplier, default 1.0. -/
def Grid.get_import_tariff (g : Grid) (num_hours : Nat) : List (Option ℚ) :=
  to_list g.import_tariff_DKK_per_kWh num_hours (scaleGet g.scale .import_tariff_scale 1)

/-- `Grid.get_export_tariff` (lines 179-182): per-hour export tariff, scaled
by the `export_tariff_scale` multiplier, default `.10` in the source. -/
def Grid.get_export_tariff (g : Grid) (num_hours : Nat) : List (Option ℚ) :=
  to_list g.export_tariff_DKK_per_kWh num_hours (scaleGet g.scale .export_tariff_scale (10 / 100))

/-- `Grid.get_energy_price` (lines 184-187): per-hour day-ahead price, scaled
by the `price_scale` multiplier, default 1.0. -/
def Grid.get_energy_price (g : Grid) (num_hours : Nat) : List (Option ℚ) :=
  to_list g.energy_price_DKK_per_kWh num_hours (scaleGet g.scale .price_scale 1)

/-- `Grid.get_max_import` (lines 189-192). -/
def Grid.get_max_import (g : Grid) : ℚ :=
  g.max_import_kW * scaleGet g.scale .max_import_kW 1

/-- `Grid.get_max_export` (lines 194-197). -/
def Grid.get_max_export (g : Grid) : ℚ :=
  g.max_export_kW * scaleGet g.scale .max_export_kW 1

/-- The `DER` adapter (opt_model.py lines 137-157): the PV hourly profile
(`der_production[0]["hourly_profile_ratio"]`), the installed PV capacity
(`appliance_params["DER"][0]["max_power_kW"]`) and the scaling mapping. -/
structure DER where
  hourly_profile : PyVal
  max_power_kW : ℚ
  scale : List (ScaleKey × ℚ)
deriving DecidableEq

/-- `DER.get_pv_profile` (lines 149-153): the PV profile through `to_list`,
scaled by the `pv_scale` multiplier, default 1.0. -/
def DER.get_pv_profile (d : DER) (num_hours : Nat) : List (Option ℚ) :=
  to_list d.hourly_profile num_hours (scaleGet d.scale .pv_scale 1)

/-- `DER.get_max_pv_capacity` (lines 155-157). -/
def DER.get_max_pv_capacity (d : DER) : ℚ := d.max_power_kW

/-- The four scenario variants (`question` strings in the source). -/
inductive Question where
  | question_1a
  | question_1b
  | question_1c
  | question_2b
deriving DecidableEq

/-- Embedding of the day-ahead price selection (opt_model.py lines 236-239):
`if fixed_da and isinstance(fixed_da, (int, float))` — a numeric override is
applied only when it is truthy, i.e. nonzero; `0`, `0.0` and `None` all fall
back to the grid energy-price series. -/
def build_da_price (fixed_da : Option ℚ) (g : Grid) (num_hours : Nat) : List (Option ℚ) :=
  match fixed_da with
  | some x => if x = 0 then g.get_energy_price num_hours else List.replicate num_hours (some x)
  | Option.none => g.get_energy_price num_hours

/-- Embedding of the per-hour tariff perturbation (opt_model.py lines 230-234):
`[phi[t] * scale[t] for t in T]` where `scale` is the fixed-seed stream
`np.random.uniform(0.5, 1.5, num_hours)` after `np.random.seed(42)`.  The
seeded stream is modelled as a function `rng_seq : Nat → ℚ`: numpy's seeded
generator is a deterministic function of the seed, and the seed is the
constant 42 in the source, so every run reads the same stream. -/
def perturb_list (rng_seq : Nat → ℚ) (phi : List (Option ℚ)) (num_hours : Nat) :
    List (Option ℚ) :=
  (List.range num_hours).map (fun t => (phi.getD t Option.none).map (fun v => v * rng_seq t))

/-- The run-time inputs that determine the tariff and price series of one
build: the grid adapter, the horizon, and the two toggles of
`build_and_solve_standardized`. -/
structure PriceInputs where
  grid : Grid
  num_hours : Nat
  vary_tariff : Bool
  fixed_da : Option ℚ
deriving DecidableEq

/-- The assembled per-hour tariff and price series (`phi_imp`, `phi_exp`,
`da_price` of opt_model.py lines 226-239). -/
structure AssembledParams where
  phi_imp : List (Option ℚ)
  phi_exp : List (Option ℚ)
  da_price : List (Option ℚ)
deriving DecidableEq

/-- Embedding of the parameter-assembly prologue of
`build_and_solve_standardized` (lines 226-239): read the two tariffs, perturb
both with the same fixed-seed multiplier stream when `vary_tariff` is set,
and select the day-ahead price series. -/
def assemble_price_params (i : PriceInputs) (rng_seq : Nat → ℚ) : AssembledParams :=
  let phi_imp0 := i.grid.get_import_tariff i.num_hours
  let phi_exp0 := i.grid.get_export_tariff i.num_hours
  { phi_imp := if i.vary_tariff then perturb_list rng_seq phi_imp0 i.num_hours else phi_imp0
    phi_exp := if i.vary_tariff then perturb_list rng_seq phi_exp0 i.num_hours else phi_exp0
    da_price := build_da_price i.fixed_da i.grid i.num_hours }

/-- The decision variables of the model, one constructor per name pattern in
the source (`p_import_{t}`, ..., `soc_{t}`, `p_bat_cap`). -/
inductive VarName where
  | p_import : Nat → VarName
  | p_export : Nat → VarName
  | p_load : Nat → VarName
  | p_pv_actual : Nat → VarName
  | y : Nat → VarName
  | z : Nat → VarName
  | p_bat_charge : Nat → VarName
  | p_bat_discharge : Nat → VarName
  | soc : Nat → VarName
  | p_bat_cap
deriving DecidableEq

/-- Constraint names, one constructor per name pattern used in the source
(`total_load_min`, `soc_lim_{t}`, `charge_excl_{t}` for the big-M variant,
`charge_exclusivity_{t}` for the tight variant, and so on). -/
inductive CName where
  | total_load_min
  | total_load_max
  | soc_lim : Nat → CName
  | import_lim : Nat → CName
  | export_lim : Nat → CName
  | pv_lim : Nat → CName
  | p_load_lim : Nat → CName
  | charge_excl : Nat → CName
  | discharge_excl : Nat → CName
  | charge_exclusivity : Nat → CName
  | discharge_exclusivity : Nat → CName
  | balance : Nat → CName
  | soc_init
  | soc_end_min
  | soc_update : Nat → CName
deriving DecidableEq

/-- A linear expression over the decision variables: a list of
coefficient/variable terms plus a constant. -/
structure LinExpr where
  terms : List (ℚ × VarName)
  const : ℚ
deriving DecidableEq

/-- Value of a linear expression at an assignment of the variables. -/
def LinExpr.eval (e : LinExpr) (v : VarName → ℚ) : ℚ :=
  (e.terms.map (fun p => p.1 * v p.2)).sum + e.const

/-- The three senses accepted by `model.addLConstr`. -/
inductive Sense where
  | le
  | ge
  | eq
deriving DecidableEq

/-- The relation a sense imposes between the two sides. -/
def Sense.holds : Sense → ℚ → ℚ → Prop
  | .le, a, b => a ≤ b
  | .ge, a, b => b ≤ a
  | .eq, a, b => a = b

instance (s : Sense) (a b : ℚ) : Decidable (s.holds a b) := by
  cases s
  · exact inferInstanceAs (Decidable (a ≤ b))
  · exact inferInstanceAs (Decidable (b ≤ a))
  · exact inferInstanceAs (Decidable (a = b))

/-- One linear constraint of the model, as added by `model.addLConstr`. -/
structure Constr where
  name : CName
  lhs : LinExpr
  sense : Sense
  rhs : LinExpr
deriving DecidableEq

/-- An assignment satisfies a constraint when the sense relation holds
between the evaluated sides. -/
def satisfies (v : VarName → ℚ) (c : Constr) : Prop :=
  c.sense.holds (c.lhs.eval v) (c.rhs.eval v)

instance (v : VarName → ℚ) (c : Constr) : Decidable (satisfies v c) :=
  inferInstanceAs (Decidable (c.sense.holds (c.lhs.eval v) (c.rhs.eval v)))

/-- The numeric parameters of one build, mirroring the local bindings of
`build_and_solve_standardized` (lines 225-265): `P_pv` is already the product
of PV capacity and profile, `storage_capacity` is the scaled nameplate
capacity (the fixed `P_bat_cap`), `max_charging_power` and
`max_discharging_power` are the rating-to-capacity fractions,
`P_min`/`P_max` are the daily energy bounds after multiplication by
`P_L_max`, and `hourly_reference` is the raw reference-profile sequence
before the `P_L_max` scaling of line 314. -/
structure Params where
  P_pv : List ℚ
  phi_imp : List ℚ
  phi_exp : List ℚ
  da_price : List ℚ
  P_down : ℚ
  P_up : ℚ
  P_L_max : ℚ
  battery_price_coeff : ℚ
  storage_capacity : ℚ
  max_charging_power : ℚ
  max_discharging_power : ℚ
  charging_efficiency : ℚ
  discharging_efficiency : ℚ
  P_min : ℚ
  P_max : ℚ
  initial_soc : ℚ
  final_soc : ℚ
  hourly_reference : List ℚ
  discomfort_cost_per_kWh : ℚ
deriving DecidableEq

/-- The `epsilon` penalty coefficient of line 301 (`1e-3`). -/
def epsilon : ℚ := 1 / 1000

/-- The `big_m` constant of line 375 (`1e3`). -/
def big_m : ℚ := 1000

/-- The grid import limit actually used: capped at 17.0 for the
capacity-sizing variant (lines 243-245). -/
def eff_P_down (q : Question) (P : Params) : ℚ :=
  if q = .question_2b then min P.P_down 17 else P.P_down

/-- The grid export limit actually used: capped at 17.0 for the
capacity-sizing variant (lines 243-245). -/
def eff_P_up (q : Question) (P : Params) : ℚ :=
  if q = .question_2b then min P.P_up 17 else P.P_up

/-- The expression the source stores under `variables["p_bat_cap"]`: the
capacity decision variable in the sizing variant, otherwise the fixed scaled
nameplate capacity (lines 248-256). -/
def capLE (q : Question) (P : Params) : LinExpr :=
  if q = .question_2b then ⟨[(1, VarName.p_bat_cap)], 0⟩ else ⟨[], P.storage_capacity⟩

/-- Multiply a linear expression by a rational constant. -/
def scaleExpr (a : ℚ) (e : LinExpr) : LinExpr :=
  ⟨e.terms.map (fun p => (a * p.1, p.2)), a * e.const⟩

/-- A single-variable expression `a · x`. -/
def term1 (a : ℚ) (x : VarName) : LinExpr := ⟨[(a, x)], 0⟩

/-- A constant expression. -/
def constE (c : ℚ) : LinExpr := ⟨[], c⟩

/-- `total_load_min` (lines 353-355). -/
def totalLoadMinC (P : Params) (n : Nat) : Constr :=
  ⟨.total_load_min, ⟨(List.range n).map (fun t => ((1 : ℚ), VarName.p_load t)), 0⟩, .ge,
    constE P.P_min⟩

/-- `total_load_max` (lines 356-358). -/
def totalLoadMaxC (P : Params) (n : Nat) : Constr :=
  ⟨.total_load_max, ⟨(List.range n).map (fun t => ((1 : ℚ), VarName.p_load t)), 0⟩, .le,
    constE P.P_max⟩

/-- `soc_lim_{t}` (line 364): state of charge bounded by the capacity
expression (constant or variable). -/
def socLimC (q : Question) (P : Params) (t : Nat) : Constr :=
  ⟨.soc_lim t, term1 1 (.soc t), .le, capLE q P⟩

/-- `import_lim_{t}` (line 367). -/
def importLimC (q : Question) (P : Params) (t : Nat) : Constr :=
  ⟨.import_lim t, term1 1 (.p_import t), .le, constE (eff_P_down q P)⟩

/-- `export_lim_{t}` (line 368). -/
def exportLimC (q : Question) (P : Params) (t : Nat) : Constr :=
  ⟨.export_lim t, term1 1 (.p_export t), .le, constE (eff_P_up q P)⟩

/-- `pv_lim_{t}` (line 369). -/
def pvLimC (P : Params) (t : Nat) : Constr :=
  ⟨.pv_lim t, term1 1 (.p_pv_actual t), .le, constE (P.P_pv.getD t 0)⟩

/-- `p_load_lim_{t}` (line 370). -/
def loadLimC (P : Params) (t : Nat) : Constr :=
  ⟨.p_load_lim t, term1 1 (.p_load t), .le, constE P.P_L_max⟩

/-- `charge_excl_{t}` (line 378, capacity-sizing variant): charge bounded by
`big_m · z[t]`, a constant coefficient that never mentions the capacity
variable. -/
def chargeExclBigMC (t : Nat) : Constr :=
  ⟨.charge_excl t, term1 1 (.p_bat_charge t), .le, term1 big_m (.z t)⟩

/-- `discharge_excl_{t}` (line 379, capacity-sizing variant): discharge
bounded by `big_m · (1 − z[t])`. -/
def dischargeExclBigMC (t : Nat) : Constr :=
  ⟨.discharge_excl t, term1 1 (.p_bat_discharge t), .le, ⟨[(-big_m, VarName.z t)], big_m⟩⟩

/-- `charge_exclusivity_{t}` (line 384, fixed-capacity variants): charge
bounded by `P_bat_ch_max · z[t]` with
`P_bat_ch_max = max_charging_power · storage_capacity`. -/
def chargeExclTightC (P : Params) (t : Nat) : Constr :=
  ⟨.charge_exclusivity t, term1 1 (.p_bat_charge t), .le,
    term1 (P.max_charging_power * P.storage_capacity) (.z t)⟩

/-- `discharge_exclusivity_{t}` (line 385, fixed-capacity variants):
discharge bounded by `P_bat_dis_max · (1 − z[t])`. -/
def dischargeExclTightC (P : Params) (t : Nat) : Constr :=
  ⟨.discharge_exclusivity t, term1 1 (.p_bat_discharge t), .le,
    ⟨[(-(P.max_discharging_power * P.storage_capacity), VarName.z t)],
      P.max_discharging_power * P.storage_capacity⟩⟩

/-- `balance_{t}` (lines 389-400): import + PV-utilized + discharge equals
load + export + charge. -/
def balanceC (t : Nat) : Constr :=
  ⟨.balance t,
    ⟨[(1, VarName.p_import t), (1, VarName.p_pv_actual t), (1, VarName.p_bat_discharge t)], 0⟩,
    .eq,
    ⟨[(1, VarName.p_load t), (1, VarName.p_export t), (1, VarName.p_bat_charge t)], 0⟩⟩

/-- `soc_init` (lines 404-409): `soc[0] = initial_soc · p_bat_cap`. -/
def socInitC (q : Question) (P : Params) : Constr :=
  ⟨.soc_init, term1 1 (.soc 0), .eq, scaleExpr P.initial_soc (capLE q P)⟩

/-- `soc_end_min` (lines 410-414): `soc[n−1] ≥ final_soc · p_bat_cap`. -/
def socEndC (q : Question) (P : Params) (n : Nat) : Constr :=
  ⟨.soc_end_min, term1 1 (.soc (n - 1)), .ge, scaleExpr P.final_soc (capLE q P)⟩

/-- `soc_update_{t}` (lines 415-425):
`soc[t+1] = soc[t] + charging_efficiency · charge[t]
 − (1 / discharging_efficiency) · discharge[t]`. -/
def socUpdateC (P : Params) (t : Nat) : Constr :=
  ⟨.soc_update t, term1 1 (.soc (t + 1)), .eq,
    ⟨[(1, VarName.soc t), (P.charging_efficiency, VarName.p_bat_charge t),
      (-(1 / P.discharging_efficiency), VarName.p_bat_discharge t)], 0⟩⟩

/-- The constraints added in the body of the per-hour loop (lines 362-425)
for hour `t`: bounds, the variant-dependent exclusivity pair, the balance,
and the conditional state-of-charge constraints (`T[0] = 0` and
`T[-1] = n − 1` for a loop over `range(n)`). -/
def hourConstraints (q : Question) (P : Params) (n t : Nat) : List Constr :=
  [socLimC q P t, importLimC q P t, exportLimC q P t, pvLimC P t, loadLimC P t]
  ++ (if q = .question_2b then [chargeExclBigMC t, dischargeExclBigMC t]
      else [chargeExclTightC P t, dischargeExclTightC P t])
  ++ [balanceC t]
  ++ (if t = 0 then [socInitC q P] else [])
  ++ (if t = n - 1 then [socEndC q P n] else [])
  ++ (if t ≠ n - 1 then [socUpdateC P t] else [])

/-- The full constraint list of one build (lines 350-425): the two daily
energy bounds followed by the per-hour constraints for every hour. -/
def buildConstraints (q : Question) (P : Params) (n : Nat) : List Constr :=
  [totalLoadMinC P n, totalLoadMaxC P n]
  ++ ((List.range n).map (hourConstraints q P n)).flatten

/-- An assignment is feasible when it satisfies every constraint of the
build. -/
def feasible (q : Question) (P : Params) (n : Nat) (vals : VarName → ℚ) : Prop :=
  ∀ c ∈ buildConstraints q P n, satisfies vals c

instance (q : Question) (P : Params) (n : Nat) (vals : VarName → ℚ) :
    Decidable (feasible q P n vals) :=
  inferInstanceAs (Decidable (∀ c ∈ buildConstraints q P n, satisfies vals c))

/-- Sum of a per-hour quantity over the horizon, `quicksum(... for t in T)`. -/
def sumOverHours (n : Nat) (f : Nat → ℚ) : ℚ :=
  ((List.range n).map f).sum

/-- The scaled reference profile of line 314:
`[v * P_L_max for v in get_reference_profile(num_hours)]`. -/
def reference_profile (P : Params) : List ℚ :=
  P.hourly_reference.map (fun v => v * P.P_L_max)

/-- The pure import/export cash flow
`Σ_t (da[t] − phi_exp[t]) · export[t] − (da[t] + phi_imp[t]) · import[t]`
(the profit term of lines 305-306 and 318-322, recomputed at line 470). -/
def cash_flow (P : Params) (n : Nat) (vals : VarName → ℚ) : ℚ :=
  sumOverHours n (fun t =>
    (P.da_price.getD t 0 - P.phi_exp.getD t 0) * vals (.p_export t)
    - (P.da_price.getD t 0 + P.phi_imp.getD t 0) * vals (.p_import t))

/-- The battery penalty `epsilon · Σ_t (charge[t] + discharge[t])`
(lines 308, 331). -/
def penalty_battery (n : Nat) (vals : VarName → ℚ) : ℚ :=
  epsilon * sumOverHours n (fun t => vals (.p_bat_charge t) + vals (.p_bat_discharge t))

/-- The grid penalty `epsilon · Σ_t (import[t] + export[t])`
(lines 309, 332). -/
def penalty_grid (n : Nat) (vals : VarName → ℚ) : ℚ :=
  epsilon * sumOverHours n (fun t => vals (.p_import t) + vals (.p_export t))

/-- The discomfort term `Σ_t (load[t] − reference[t])²` (lines 325-328,
recomputed at line 467). -/
def discomfort_at (P : Params) (n : Nat) (vals : VarName → ℚ) : ℚ :=
  sumOverHours n (fun t => (vals (.p_load t) - (reference_profile P).getD t 0) ^ 2)

/-- The objective of lines 300-345, evaluated at an assignment.  Variant
`question_1a` maximizes cash flow minus the two penalties; the other three
variants subtract the weighted discomfort as well, and the capacity-sizing
variant additionally subtracts `p_bat_cap · battery_price_coeff`. -/
def objectiveAt (q : Question) (P : Params) (n : Nat) (vals : VarName → ℚ) : ℚ :=
  match q with
  | .question_1a => cash_flow P n vals - penalty_battery n vals - penalty_grid n vals
  | .question_1b =>
      cash_flow P n vals - P.discomfort_cost_per_kWh * discomfort_at P n vals
        - penalty_battery n vals - penalty_grid n vals
  | .question_1c =>
      cash_flow P n vals - P.discomfort_cost_per_kWh * discomfort_at P n vals
        - penalty_battery n vals - penalty_grid n vals
  | .question_2b =>
      cash_flow P n vals - P.discomfort_cost_per_kWh * discomfort_at P n vals
        - penalty_battery n vals - penalty_grid n vals
        - vals VarName.p_bat_cap * P.battery_price_coeff

/-- Gurobi termination statuses, abstracted: the source only distinguishes
`GRB.OPTIMAL` from everything else (line 433). -/
inductive GStatus where
  | optimal
  | infeasible
  | unbounded
  | inf_or_unbd
  | interrupted
  | other : Nat → GStatus
deriving DecidableEq

/-- What the external solver hands back after `model.optimize()`: a
termination status, a candidate assignment (`.X` values, meaningful on
optimal termination), the reported objective value `model.objVal`, and the
constraint duals `.Pi`. -/
structure SolveOutcome where
  status : GStatus
  point : VarName → ℚ
  objVal : ℚ
  duals : CName → ℚ

/-- The primal values placed in the result mapping (lines 435-443): solver
values for every variable, except that in the fixed-capacity variants the
`p_bat_cap` entry is the constant nameplate capacity, which was never a true
decision variable. -/
def result_vals (q : Question) (P : Params) (sr : SolveOutcome) : VarName → ℚ :=
  fun v =>
    match v with
    | .p_bat_cap => if q = .question_2b then sr.point VarName.p_bat_cap else P.storage_capacity
    | w => sr.point w

/-- The flat result structure returned on optimal termination
(lines 435-475). -/
structure ExtractedResults where
  vals : VarName → ℚ
  p_curtailment : List ℚ
  soc_normal : List ℚ
  battery_price_coeff : ℚ
  duals : CName → ℚ
  phi_imp : List ℚ
  phi_exp : List ℚ
  da_price : List ℚ
  ref_profile : Option (List ℚ)
  discomfort : Option ℚ
  actual_profit : ℚ

/-- The result extraction of lines 435-475: primal values, curtailment
(`P_pv[t] − p_pv_actual[t]`), the division-guarded normalized state of
charge, the attached tariff/price series, the recomputed discomfort and
cash-flow profit for `question_1b`/`question_1c`, and the objective value as
`actual_profit` for the other two variants. -/
def extract_results (q : Question) (P : Params) (n : Nat) (sr : SolveOutcome) :
    ExtractedResults :=
  let rvals := result_vals q P sr
  let cap_val := rvals VarName.p_bat_cap
  { vals := rvals
    p_curtailment := (List.range n).map (fun t => P.P_pv.getD t 0 - sr.point (.p_pv_actual t))
    soc_normal :=
      (List.range n).map (fun t => if cap_val > 0 then sr.point (.soc t) / cap_val else 0)
    battery_price_coeff := P.battery_price_coeff
    duals := sr.duals
    phi_imp := P.phi_imp
    phi_exp := P.phi_exp
    da_price := P.da_price
    ref_profile := if q = .question_1a then Option.none else some (reference_profile P)
    discomfort :=
      if q = .question_1b ∨ q = .question_1c then some (discomfort_at P n sr.point)
      else Option.none
    actual_profit :=
      if q = .question_1b ∨ q = .question_1c then cash_flow P n sr.point else sr.objVal }

/-- The post-solve branch of lines 431-481: on `GRB.OPTIMAL` the extracted
results are returned together with `model.objVal`; on any other status the
call returns `(None, None)` — no partial values, no retry, no relaxation. -/
def build_and_solve_finish (q : Question) (P : Params) (n : Nat) (sr : SolveOutcome) :
    Option (ExtractedResults × ℚ) :=
  if sr.status = .optimal then some (extract_results q P n sr, sr.objVal) else Option.none

/-- The capacity value a variant measures state of charge against: the
solved capacity variable in the sizing variant, otherwise the fixed scaled
nameplate capacity. -/
def cap_value (q : Question) (P : Params) (vals : VarName → ℚ) : ℚ :=
  if q = .question_2b then vals VarName.p_bat_cap else P.storage_capacity

/-- Every constraint emitted in the loop body for an hour of the horizon is
in the build's constraint list. -/
theorem mem_build_of_mem_hour {q : Question} {P : Params} {n t : Nat} {c : Constr}
    (ht : t < n) (hc : c ∈ hourConstraints q P n t) : c ∈ buildConstraints q P n := by
  unfold buildConstraints
  refine List.mem_append_right _ ?_
  exact List.mem_flatten.mpr ⟨hourConstraints q P n t, List.mem_map_of_mem _ (List.mem_range.mpr ht), hc⟩

/-- The balance constraint is emitted for every hour, in every variant. -/
theorem balanceC_mem_hour (q : Question) (P : Params) (n t : Nat) :
    balanceC t ∈ hourConstraints q P n t := by
  unfold hourConstraints
  simp [List.mem_append]

/-- The state-of-charge cap constraint is emitted for every hour. -/
theorem socLimC_mem_hour (q : Question) (P : Params) (n t : Nat) :
    socLimC q P t ∈ hourConstraints q P n t := by
  unfold hourConstraints
  simp [List.mem_append]

/-- The initial state-of-charge constraint is emitted at hour 0. -/
theorem socInitC_mem_hour (q : Question) (P : Params) (n : Nat) :
    socInitC q P ∈ hourConstraints q P n 0 := by
  unfold hourConstraints
  simp [List.mem_append]

/-- The final state-of-charge constraint is emitted at hour `n − 1`. -/
theorem socEndC_mem_hour (q : Question) (P : Params) (n : Nat) :
    socEndC q P n ∈ hourConstraints q P n (n - 1) := by
  unfold hourConstraints
  simp [List.mem_append]

/-- The state-of-charge update constraint is emitted for every hour other
than the last. -/
theorem socUpdateC_mem_hour (q : Question) (P : Params) {n t : Nat} (h : t ≠ n - 1) :
    socUpdateC P t ∈ hourConstraints q P n t := by
  unfold hourConstraints
  simp [List.mem_append, h]

/-- The big-M exclusivity pair is emitted in the capacity-sizing variant. -/
theorem exclBigM_mem_hour (P : Params) (n t : Nat) :
    chargeExclBigMC t ∈ hourConstraints .question_2b P n t ∧
    dischargeExclBigMC t ∈ hourConstraints .question_2b P n t := by
  unfold hourConstraints
  constructor <;> simp [List.mem_append]

/-- The tight exclusivity pair is emitted in every fixed-capacity variant. -/
theorem exclTight_mem_hour {q : Question} (hq : q ≠ .question_2b) (P : Params) (n t : Nat) :
    chargeExclTightC P t ∈ hourConstraints q P n t ∧
    dischargeExclTightC P t ∈ hourConstraints q P n t := by
  unfold hourConstraints
  constructor <;> simp [List.mem_append, hq]

/-- The capacity expression evaluates to the variant's capacity value. -/
theorem capLE_eval (q : Question) (P : Params) (v : VarName → ℚ) :
    (capLE q P).eval v = cap_value q P v := by
  cases q <;> simp [capLE, cap_value, LinExpr.eval]

/-- The scaled capacity expression evaluates to the scaled capacity value. -/
theorem scale_capLE_eval (a : ℚ) (q : Question) (P : Params) (v : VarName → ℚ) :
    (scaleExpr a (capLE q P)).eval v = a * cap_value q P v := by
  cases q <;> simp [scaleExpr, capLE, cap_value, LinExpr.eval]

/-- C1: for every hour `t` of the horizon and in every one of the four
variants, the builder adds the equality constraint
`p_import[t] + p_pv_actual[t] + p_bat_discharge[t]
 = p_load[t] + p_export[t] + p_bat_charge[t]`, so any assignment satisfying
the emitted constraints obeys the hourly energy balance. -/
theorem hourly_energy_balance (q : Question) (P : Params) (n t : Nat) (ht : t < n)
    (vals : VarName → ℚ) (h : feasible q P n vals) :
    balanceC t ∈ buildConstraints q P n ∧
    vals (.p_import t) + vals (.p_pv_actual t) + vals (.p_bat_discharge t)
      = vals (.p_load t) + vals (.p_export t) + vals (.p_bat_charge t) := by
  have hmem : balanceC t ∈ buildConstraints q P n :=
    mem_build_of_mem_hour ht (balanceC_mem_hour q P n t)
  refine ⟨hmem, ?_⟩
  have hs := h _ hmem
  simp only [satisfies, balanceC, Sense.holds, LinExpr.eval, List.map_cons, List.map_nil,
    List.sum_cons, List.sum_nil, one_mul, add_zero] at hs
  linarith

/-- The all-zero assignment, used as a concrete solution. -/
def valsZ : VarName → ℚ := fun _ => 0

/-- A concrete all-zero parameter set over a short horizon. -/
def P0 : Params :=
  ⟨[], [], [], [], 0, 0, 0, 0, 0, 0, 0, 1, 1, 0, 0, 0, 0, [], 1⟩

/-- The all-zero assignment is feasible for the all-zero scenario over a
two-hour horizon in the profit-maximization variant. -/
theorem feasible_P0_2 : feasible .question_1a P0 2 valsZ := by
  norm_num +decide [feasible, buildConstraints, hourConstraints, totalLoadMinC, totalLoadMaxC,
    socLimC, importLimC, exportLimC, pvLimC, loadLimC, chargeExclTightC, dischargeExclTightC,
    chargeExclBigMC, dischargeExclBigMC, balanceC, socInitC, socEndC, socUpdateC,
    satisfies, Sense.holds, LinExpr.eval, capLE, scaleExpr, term1, constE,
    eff_P_down, eff_P_up, P0, valsZ, List.range_succ]

theorem hourly_energy_balance_witness :
    valsZ (VarName.p_import 0) + valsZ (VarName.p_pv_actual 0) + valsZ (VarName.p_bat_discharge 0)
      = valsZ (VarName.p_load 0) + valsZ (VarName.p_export 0) + valsZ (VarName.p_bat_charge 0) :=
  (hourly_energy_balance .question_1a P0 2 0 (by decide) valsZ feasible_P0_2).2

/-- A single-term expression evaluates to coefficient times value. -/
theorem term1_eval (a : ℚ) (x : VarName) (v : VarName → ℚ) :
    (term1 a x).eval v = a * v x := by
  simp [term1, LinExpr.eval]

/-- C2: in every variant, the state-of-charge trajectory is constrained by
`soc[0] = initial_soc · capacity`, by
`soc[t+1] = soc[t] + charging_efficiency · charge[t]
 − discharge[t] / discharging_efficiency` for every hour but the last, by
`soc[n−1] ≥ final_soc · capacity`, and by `soc[u] ≤ capacity` for every
hour `u`, where the capacity is the fixed constant or the capacity decision
variable depending on the variant. -/
theorem soc_dynamics (q : Question) (P : Params) (n : Nat) (hn : 0 < n) (t u : Nat)
    (vals : VarName → ℚ) (h : feasible q P n vals) :
    vals (.soc 0) = P.initial_soc * cap_value q P vals
    ∧ (t + 1 < n →
        vals (.soc (t + 1))
          = vals (.soc t) + P.charging_efficiency * vals (.p_bat_charge t)
            - vals (.p_bat_discharge t) / P.discharging_efficiency)
    ∧ P.final_soc * cap_value q P vals ≤ vals (.soc (n - 1))
    ∧ (u < n → vals (.soc u) ≤ cap_value q P vals) := by
  refine ⟨?_, ?_, ?_, ?_⟩
  · have h0 := h _ (mem_build_of_mem_hour hn (socInitC_mem_hour q P n))
    simp only [satisfies, socInitC, Sense.holds, term1_eval, scale_capLE_eval, one_mul] at h0
    exact h0
  · intro htn
    have hu := h _ (mem_build_of_mem_hour (show t < n by omega)
      (socUpdateC_mem_hour q P (show t ≠ n - 1 by omega)))
    simp only [satisfies, socUpdateC, Sense.holds, term1, LinExpr.eval, List.map_cons,
      List.map_nil, List.sum_cons, List.sum_nil, one_mul, add_zero, neg_mul] at hu
    have hdiv : 1 / P.discharging_efficiency * vals (.p_bat_discharge t)
        = vals (.p_bat_discharge t) / P.discharging_efficiency :=
      one_div_mul_eq_div _ _
    linarith
  · have he := h _ (mem_build_of_mem_hour (show n - 1 < n by omega) (socEndC_mem_hour q P n))
    simp only [satisfies, socEndC, Sense.holds, term1_eval, scale_capLE_eval, one_mul] at he
    exact he
  · intro hun
    have hl := h _ (mem_build_of_mem_hour hun (socLimC_mem_hour q P n u))
    simp only [satisfies, socLimC, Sense.holds, term1_eval, capLE_eval, one_mul] at hl
    exact hl

theorem soc_dynamics_witness :
    valsZ (VarName.soc 0) = P0.initial_soc * cap_value .question_1a P0 valsZ
    ∧ ((0 : Nat) + 1 < 2 →
        valsZ (VarName.soc (0 + 1))
          = valsZ (VarName.soc 0) + P0.charging_efficiency * valsZ (VarName.p_bat_charge 0)
            - valsZ (VarName.p_bat_discharge 0) / P0.discharging_efficiency)
    ∧ P0.final_soc * cap_value .question_1a P0 valsZ ≤ valsZ (VarName.soc (2 - 1))
    ∧ ((1 : Nat) < 2 → valsZ (VarName.soc 1) ≤ cap_value .question_1a P0 valsZ) :=
  soc_dynamics .question_1a P0 2 (by decide) 0 1 valsZ feasible_P0_2

/-- C3: the post-solve branch yields a `(results, objective)` pair exactly
when the solver reports optimal termination, and yields the absent result on
every other status — no partial values, no retry. -/
theorem optimal_iff_result (q : Question) (P : Params) (n : Nat) (sr : SolveOutcome) :
    ((∃ res obj, build_and_solve_finish q P n sr = some (res, obj))
        ↔ sr.status = GStatus.optimal)
    ∧ (build_and_solve_finish q P n sr = Option.none ↔ sr.status ≠ GStatus.optimal) := by
  unfold build_and_solve_finish
  by_cases hs : sr.status = GStatus.optimal <;> simp [hs]

/-- The all-zero assignment is feasible for the all-zero scenario over a
one-hour horizon in the capacity-sizing variant. -/
theorem feasible_P0_2b_1 : feasible .question_2b P0 1 valsZ := by
  norm_num +decide [feasible, buildConstraints, hourConstraints, totalLoadMinC, totalLoadMaxC,
    socLimC, importLimC, exportLimC, pvLimC, loadLimC, chargeExclTightC, dischargeExclTightC,
    chargeExclBigMC, dischargeExclBigMC, balanceC, socInitC, socEndC, socUpdateC,
    satisfies, Sense.holds, LinExpr.eval, capLE, scaleExpr, term1, constE,
    eff_P_down, eff_P_up, P0, valsZ, List.range_succ, big_m, min_def]

/-- C6: the battery exclusivity constraints are variant-dependent — the
capacity-sizing variant emits the big-M pair
`charge[t] ≤ big_m · z[t]` and `discharge[t] ≤ big_m · (1 − z[t])` with
`big_m` a fixed constant that never mentions the capacity variable, while
every other variant emits the tight pair with bound
`rating fraction · fixed capacity`. -/
theorem exclusivity_by_variant (q : Question) (P : Params) (n t : Nat) (ht : t < n)
    (vals : VarName → ℚ) (h : feasible q P n vals) :
    (q = .question_2b →
        chargeExclBigMC t ∈ buildConstraints q P n
        ∧ dischargeExclBigMC t ∈ buildConstraints q P n
        ∧ vals (.p_bat_charge t) ≤ big_m * vals (.z t)
        ∧ vals (.p_bat_discharge t) ≤ big_m * (1 - vals (.z t)))
    ∧ (q ≠ .question_2b →
        chargeExclTightC P t ∈ buildConstraints q P n
        ∧ dischargeExclTightC P t ∈ buildConstraints q P n
        ∧ vals (.p_bat_charge t) ≤ P.max_charging_power * P.storage_capacity * vals (.z t)
        ∧ vals (.p_bat_discharge t)
            ≤ P.max_discharging_power * P.storage_capacity * (1 - vals (.z t))) := by
  constructor
  · intro hq
    subst hq
    obtain ⟨hc, hd⟩ := exclBigM_mem_hour P n t
    have hcm := mem_build_of_mem_hour ht hc
    have hdm := mem_build_of_mem_hour ht hd
    refine ⟨hcm, hdm, ?_, ?_⟩
    · have hs := h _ hcm
      simp only [satisfies, chargeExclBigMC, Sense.holds, term1_eval] at hs
      linarith
    · have hs := h _ hdm
      simp only [satisfies, dischargeExclBigMC, Sense.holds, term1, LinExpr.eval,
        List.map_cons, List.map_nil, List.sum_cons, List.sum_nil, one_mul, add_zero,
        neg_mul] at hs
      rw [mul_sub, mul_one]
      linarith
  · intro hq
    obtain ⟨hc, hd⟩ := exclTight_mem_hour hq P n t
    have hcm := mem_build_of_mem_hour ht hc
    have hdm := mem_build_of_mem_hour ht hd
    refine ⟨hcm, hdm, ?_, ?_⟩
    · have hs := h _ hcm
      simp only [satisfies, chargeExclTightC, Sense.holds, term1_eval] at hs
      linarith
    · have hs := h _ hdm
      simp only [satisfies, dischargeExclTightC, Sense.holds, term1, LinExpr.eval,
        List.map_cons, List.map_nil, List.sum_cons, List.sum_nil, one_mul, add_zero,
        neg_mul] at hs
      rw [mul_sub, mul_one]
      linarith

theorem exclusivity_by_variant_witness :
    (Question.question_2b = Question.question_2b →
        chargeExclBigMC 0 ∈ buildConstraints .question_2b P0 1
        ∧ dischargeExclBigMC 0 ∈ buildConstraints .question_2b P0 1
        ∧ valsZ (VarName.p_bat_charge 0) ≤ big_m * valsZ (VarName.z 0)
        ∧ valsZ (VarName.p_bat_discharge 0) ≤ big_m * (1 - valsZ (VarName.z 0)))
    ∧ (Question.question_2b ≠ Question.question_2b →
        chargeExclTightC P0 0 ∈ buildConstraints .question_2b P0 1
        ∧ dischargeExclTightC P0 0 ∈ buildConstraints .question_2b P0 1
        ∧ valsZ (VarName.p_bat_charge 0)
            ≤ P0.max_charging_power * P0.storage_capacity * valsZ (VarName.z 0)
        ∧ valsZ (VarName.p_bat_discharge 0)
            ≤ P0.max_discharging_power * P0.storage_capacity * (1 - valsZ (VarName.z 0))) :=
  exclusivity_by_variant .question_2b P0 1 0 (by decide) valsZ feasible_P0_2b_1

/-- C4 (amended): the recomputed pure cash flow is stored as
`actual_profit` only for the two discomfort variants `question_1b` and
`question_1c`; for `question_1a` and `question_2b` the code stores the
solver objective value instead, which still carries the epsilon penalty
terms (and, for the sizing variant, the discomfort and capacity-cost
terms). -/
theorem actual_profit_by_variant (P : Params) (n : Nat) (sr : SolveOutcome) :
    (extract_results .question_1b P n sr).actual_profit = cash_flow P n sr.point
    ∧ (extract_results .question_1c P n sr).actual_profit = cash_flow P n sr.point
    ∧ (extract_results .question_1a P n sr).actual_profit = sr.objVal
    ∧ (extract_results .question_2b P n sr).actual_profit = sr.objVal := by
  refine ⟨?_, ?_, ?_, ?_⟩ <;> simp +decide [extract_results]

/-- A one-hour scenario that forces one unit of imported load: minimum
daily energy one full hour, max hourly load 1 kWh, zero PV, zero battery,
price 1, tariffs 0. -/
def Pce : Params :=
  ⟨[0], [0], [0], [1], 10, 10, 1, 1, 0, 0, 0, 1, 1, 1, 24, 0, 0, [0], 1⟩

/-- The unique cost-minimal dispatch of `Pce`: import exactly the forced
unit of load, everything else zero. -/
def ptCE : VarName → ℚ := fun v =>
  match v with
  | .p_import 0 => 1
  | .p_load 0 => 1
  | _ => 0

/-- An honest optimal solver outcome for `Pce` in the profit-maximization
variant: the reported objective value is the objective evaluated at the
returned point. -/
def srCE : SolveOutcome :=
  ⟨.optimal, ptCE, objectiveAt .question_1a Pce 1 ptCE, fun _ => 0⟩

/-- C4 (counterexample): on optimal termination of the profit-maximization
variant at a feasible (indeed optimal) point with a nonzero grid flow, the
stored `actual_profit` is the objective value `−1 − 1/1000` and differs
from the pure import/export cash flow `−1` by the epsilon penalty. -/
theorem actual_profit_counterexample :
    srCE.status = GStatus.optimal
    ∧ feasible .question_1a Pce 1 ptCE
    ∧ srCE.objVal = objectiveAt .question_1a Pce 1 ptCE
    ∧ (extract_results .question_1a Pce 1 srCE).actual_profit ≠ cash_flow Pce 1 srCE.point := by
  refine ⟨rfl, ?_, rfl, ?_⟩
  · norm_num +decide [feasible, buildConstraints, hourConstraints, totalLoadMinC, totalLoadMaxC,
      socLimC, importLimC, exportLimC, pvLimC, loadLimC, chargeExclTightC, dischargeExclTightC,
      chargeExclBigMC, dischargeExclBigMC, balanceC, socInitC, socEndC, socUpdateC,
      satisfies, Sense.holds, LinExpr.eval, capLE, scaleExpr, term1, constE,
      eff_P_down, eff_P_up, Pce, ptCE, List.range_succ]
  · norm_num +decide [extract_results, srCE, objectiveAt, cash_flow, penalty_battery,
      penalty_grid, sumOverHours, epsilon, Pce, ptCE, List.range_succ]

/-- A DER whose supplied PV profile has three entries, disagreeing with a
24-hour horizon. -/
def derCE : DER := ⟨.list [1, 2, 3], 5, []⟩

/-- C5 (counterexample): the PV adapter returns the three-entry series
unchanged in length for a 24-hour horizon — no failure, no padding, and a
length that disagrees with `num_hours`. -/
theorem pv_profile_length_counterexample :
    (derCE.get_pv_profile 24).length = 3 ∧ (3 : Nat) ≠ 24 := by
  constructor
  · simp [DER.get_pv_profile, to_list, derCE]
  · decide

/-- C5 (amended): `to_list` broadcasts numeric and missing inputs to exactly
`num_hours` entries, but returns a list input at the list's own length with
no length check against the horizon. -/
theorem to_list_lengths (v : ℚ) (l : List ℚ) (n : Nat) (s : ℚ) :
    (to_list (.num v) n s).length = n
    ∧ (to_list PyVal.none n s).length = n
    ∧ (to_list (.list l) n s).length = l.length := by
  refine ⟨?_, ?_, ?_⟩ <;> simp [to_list]

/-- C7: the normalized state-of-charge series equals `soc[t] / capacity`
whenever the solved (or fixed) capacity is strictly positive, and is the
constant 0 when the capacity is zero — the division is always guarded. -/
theorem soc_normal_guarded (q : Question) (P : Params) (n : Nat) (sr : SolveOutcome)
    (t : Nat) (ht : t < n) :
    (0 < result_vals q P sr VarName.p_bat_cap →
      (extract_results q P n sr).soc_normal[t]?
        = some (sr.point (.soc t) / result_vals q P sr VarName.p_bat_cap))
    ∧ (result_vals q P sr VarName.p_bat_cap = 0 →
      (extract_results q P n sr).soc_normal[t]? = some 0) := by
  have hsn : (extract_results q P n sr).soc_normal[t]?
      = some (if result_vals q P sr VarName.p_bat_cap > 0
              then sr.point (.soc t) / result_vals q P sr VarName.p_bat_cap else 0) := by
    simp [extract_results, List.getElem?_map, List.getElem?_range, ht]
  constructor
  · intro hpos
    rw [hsn, if_pos hpos]
  · intro hz
    rw [hsn, if_neg (by rw [hz]; exact lt_irrefl 0)]

/-- A parameter set with a fixed 2-kWh battery. -/
def Pcap : Params :=
  ⟨[], [], [], [], 0, 0, 0, 0, 2, 0, 0, 1, 1, 0, 0, 0, 0, [], 1⟩

/-- An optimal outcome whose only nonzero value is one unit of stored
energy at hour 0. -/
def srW : SolveOutcome :=
  ⟨.optimal, fun v => match v with | .soc 0 => 1 | _ => 0, 0, fun _ => 0⟩

theorem soc_normal_guarded_witness :
    (0 < result_vals .question_1a Pcap srW VarName.p_bat_cap →
      (extract_results .question_1a Pcap 1 srW).soc_normal[0]?
        = some (srW.point (VarName.soc 0) / result_vals .question_1a Pcap srW VarName.p_bat_cap))
    ∧ (result_vals .question_1a Pcap srW VarName.p_bat_cap = 0 →
      (extract_results .question_1a Pcap 1 srW).soc_normal[0]? = some 0) :=
  soc_normal_guarded .question_1a Pcap 1 srW 0 (by decide)

/-- A grid with unit tariffs and price and an empty scaling mapping. -/
def gridCE : Grid := ⟨.num 1, .num 1, .num 1, 1, 1, []⟩

/-- C8 (counterexample): with no export-tariff key in the scaling mapping,
the export tariff is multiplied by the default `0.10`, not by `1.0`, so it
disagrees with the import-tariff default on identical raw tariffs. -/
theorem export_tariff_default_counterexample :
    gridCE.scale = []
    ∧ Grid.get_export_tariff gridCE 1 = [some (10 / 100)]
    ∧ Grid.get_import_tariff gridCE 1 = [some 1]
    ∧ Grid.get_export_tariff gridCE 1 ≠ Grid.get_import_tariff gridCE 1 := by
  refine ⟨rfl, ?_, ?_, ?_⟩ <;>
    norm_num [Grid.get_export_tariff, Grid.get_import_tariff, to_list, scaleGet, gridCE]

/-- C8 (amended): when the scaling mapping has no entry for the tariff
keys, `get_import_tariff` applies the default factor 1.0 while
`get_export_tariff` applies the default factor 0.10. -/
theorem tariff_scale_defaults (g : Grid) (n : Nat)
    (h1 : g.scale.lookup ScaleKey.import_tariff_scale = Option.none)
    (h2 : g.scale.lookup ScaleKey.export_tariff_scale = Option.none) :
    g.get_import_tariff n = to_list g.import_tariff_DKK_per_kWh n 1
    ∧ g.get_export_tariff n = to_list g.export_tariff_DKK_per_kWh n (10 / 100) := by
  unfold Grid.get_import_tariff Grid.get_export_tariff scaleGet
  rw [h1, h2]
  exact ⟨rfl, rfl⟩

/-- A grid with distinct raw tariffs and an empty scaling mapping. -/
def gridW : Grid := ⟨.num 2, .num 3, .num 1, 1, 1, []⟩

theorem tariff_scale_defaults_witness :
    Grid.get_import_tariff gridW 1 = to_list gridW.import_tariff_DKK_per_kWh 1 1
    ∧ Grid.get_export_tariff gridW 1 = to_list gridW.export_tariff_DKK_per_kWh 1 (10 / 100) :=
  tariff_scale_defaults gridW 1 rfl rfl

/-- C9: assembling the tariff and price series twice from equal inputs and
the same fixed-seed multiplier stream yields identical series; with
perturbation enabled both runs multiply the same base tariffs by the same
per-hour multipliers. -/
theorem prices_deterministic (i1 i2 : PriceInputs) (rng_seq : Nat → ℚ) (h : i1 = i2) :
    assemble_price_params i1 rng_seq = assemble_price_params i2 rng_seq
    ∧ (List.range i1.num_hours).map rng_seq = (List.range i2.num_hours).map rng_seq
    ∧ (i1.vary_tariff = true →
        (assemble_price_params i1 rng_seq).phi_imp
          = perturb_list rng_seq (i1.grid.get_import_tariff i1.num_hours) i1.num_hours
        ∧ (assemble_price_params i2 rng_seq).phi_exp
          = perturb_list rng_seq (i2.grid.get_export_tariff i2.num_hours) i2.num_hours) := by
  subst h
  refine ⟨rfl, rfl, fun hv => ⟨?_, ?_⟩⟩ <;> simp [assemble_price_params, hv]

/-- Concrete price-assembly inputs with perturbation enabled. -/
def priW : PriceInputs := ⟨gridW, 2, true, Option.none⟩

/-- A concrete multiplier stream. -/
def rngW : Nat → ℚ := fun t => 1 + t

theorem prices_deterministic_witness :
    assemble_price_params priW rngW = assemble_price_params priW rngW
    ∧ (List.range priW.num_hours).map rngW = (List.range priW.num_hours).map rngW
    ∧ (priW.vary_tariff = true →
        (assemble_price_params priW rngW).phi_imp
          = perturb_list rngW (priW.grid.get_import_tariff priW.num_hours) priW.num_hours
        ∧ (assemble_price_params priW rngW).phi_exp
          = perturb_list rngW (priW.grid.get_export_tariff priW.num_hours) priW.num_hours) :=
  prices_deterministic priW priW rngW rfl

/-- C10: a day-ahead price override of 0 (or a missing override) is falsy
in the source's truthiness test and is silently ignored in favour of the
grid energy-price series; only a nonzero numeric override replaces the
series by a constant. -/
theorem fixed_da_truthiness (g : Grid) (n : Nat) (x : ℚ) (hx : x ≠ 0) :
    build_da_price (some 0) g n = g.get_energy_price n
    ∧ build_da_price Option.none g n = g.get_energy_price n
    ∧ build_da_price (some x) g n = List.replicate n (some x) := by
  refine ⟨?_, rfl, ?_⟩
  · simp [build_da_price]
  · simp [build_da_price, hx]

theorem fixed_da_truthiness_witness :
    build_da_price (some 0) gridW 3 = gridW.get_energy_price 3
    ∧ build_da_price Option.none gridW 3 = gridW.get_energy_price 3
    ∧ build_da_price (some 5) gridW 3 = List.replicate 3 (some 5) :=
  fixed_da_truthiness gridW 3 5 (by norm_num)

end Group25
